import Mathlib

set_option maxHeartbeats 1000000
set_option maxRecDepth 8000

/-!
Shallow embedding of the wmpl CAMS format pipeline
(src/wmpl/Formats/CAMS.py and src/wmpl/Formats/Pickle.py).

Modelling conventions:
* Python floats are modelled as exact rationals.
* Python lists are Lean lists; numpy angle conversions and the
  astronomical routines imported from wmpl.Utils (date2JD,
  equatorialCoordPrecession_vect, raDec2AltAz_vect, np.radians) are not part
  of the two source files, so they are treated as parameters gathered in the
  `ExtFns` structure: every theorem holds for an arbitrary instantiation.
* Python dicts are insertion-ordered association lists.
* Python exceptions are an explicit error type threaded through `Except`.
* A file is the list of its lines with the trailing newline removed
  (iterating a Python file handle yields lines whose only newline is the
  trailing one, which the source code strips or ignores in every branch).
-/

/-- Python exception kinds that the embedded code can raise. -/
inductive PyErr where
  | indexError
  | valueError
  | stopIteration
  | unboundLocalError
deriving DecidableEq

/-- A CAMS station identifier: the result of int(token) when the token parses
as an integer, otherwise the stripped token itself (the dynamic typing that
the source applies to station ids in all three loaders). -/
inductive StationId where
  | int (n : ℤ)
  | str (s : String)
deriving DecidableEq

/-- Boolean success test for an embedded Python computation. -/
def isOkE {α : Type} (e : Except PyErr α) : Bool :=
  match e with
  | .ok _ => true
  | .error _ => false

instance {ε α : Type} [DecidableEq ε] [DecidableEq α] :
    DecidableEq (Except ε α) := fun x y =>
  match x, y with
  | .ok a, .ok b =>
    if h : a = b then .isTrue (by rw [h])
    else .isFalse (by intro hc; cases hc; exact h rfl)
  | .ok _, .error _ => .isFalse (by intro hc; cases hc)
  | .error _, .ok _ => .isFalse (by intro hc; cases hc)
  | .error e, .error f =>
    if h : e = f then .isTrue (by rw [h])
    else .isFalse (by intro hc; cases hc; exact h rfl)

/-- Base-10 value of a digit list (most significant first). -/
def digitsVal (cs : List Char) : ℕ :=
  cs.foldl (fun a c => 10 * a + (c.toNat - 48)) 0

/-- Base-10 parse of a nonempty all-digit character list. -/
def digitsToNat? (cs : List Char) : Option ℕ :=
  if cs ≠ [] ∧ cs.all Char.isDigit then some (digitsVal cs) else none

/-- Drop leading and trailing whitespace, as Python str.strip and the
implicit stripping done by int() and float(). -/
def trimChars (cs : List Char) : List Char :=
  ((cs.dropWhile Char.isWhitespace).reverse.dropWhile Char.isWhitespace).reverse

/-- Signed integer parse of a character list: optional sign then digits. -/
def intChars? (cs : List Char) : Option ℤ :=
  match cs with
  | '-' :: r => (digitsToNat? r).map (fun n => -(n : ℤ))
  | '+' :: r => (digitsToNat? r).map (fun n => (n : ℤ))
  | _ => (digitsToNat? cs).map (fun n => (n : ℤ))

/-- Python int(s): strip whitespace, optional sign, decimal digits.
(Underscore digit grouping and non-ASCII digits are not modelled.) -/
def pyInt? (s : String) : Option ℤ :=
  intChars? (trimChars s.toList)

/-- int-coercion of a station id token: `try: station_id = int(station_id)
except: pass`. -/
def coerceStationId (s : String) : StationId :=
  match pyInt? s with
  | some n => .int n
  | none => .str s

/-- Split a character list at every occurrence of a separator character,
keeping empty segments, as Python str.split(sep). -/
def splitOnChar (sep : Char) : List Char → List (List Char)
  | [] => [[]]
  | c :: rest =>
    match splitOnChar sep rest with
    | [] => [[c]]
    | h :: t => if c = sep then [] :: h :: t else (c :: h) :: t

/-- Split a character list at every whitespace character, keeping empty
segments. -/
def splitWsChar : List Char → List (List Char)
  | [] => [[]]
  | c :: rest =>
    match splitWsChar rest with
    | [] => [[c]]
    | h :: t => if c.isWhitespace then [] :: h :: t else (c :: h) :: t

/-- Python s.split(): split at whitespace runs, dropping empty segments. -/
def pySplit (s : String) : List String :=
  ((splitWsChar s.toList).filter (fun t => t ≠ [])).map (fun cs => String.mk cs)

/-- Python s.split(underscore): substring segments between underscores. -/
def pySplitUnderscore (s : String) : List String :=
  (splitOnChar '_' s.toList).map (fun cs => String.mk cs)

/-- Mantissa of a Python float literal: digits with an optional decimal
point, at least one digit present. -/
def mantissa? (cs : List Char) : Option ℚ :=
  match splitOnChar '.' cs with
  | [i] => (digitsToNat? i).map (fun n => (n : ℚ))
  | [i, f] =>
    if (i ≠ [] ∨ f ≠ []) ∧ i.all Char.isDigit ∧ f.all Char.isDigit then
      some ((digitsVal i : ℚ) + (digitsVal f : ℚ) / (10 : ℚ) ^ f.length)
    else none
  | _ => none

/-- Python float(s) on finite decimal and scientific notation: strip, optional
sign, mantissa, optional exponent. The non-finite tokens inf and nan have no
rational value and are not modelled (the one place the source meets the token
inf, the point-line magnitude, intercepts it by string comparison before
calling float). -/
def parseFloat? (s : String) : Option ℚ :=
  let t := (trimChars s.toList).map Char.toLower
  let (sgn, t2) : ℚ × List Char :=
    match t with
    | '-' :: r => (-1, r)
    | '+' :: r => (1, r)
    | _ => (1, t)
  match splitOnChar 'e' t2 with
  | [m] => (mantissa? m).map (fun v => sgn * v)
  | [m, ex] =>
    match mantissa? m, intChars? ex with
    | some v, some e => some (sgn * v * (10 : ℚ) ^ e)
    | _, _ => none
  | _ => none

/-- The routines the CAMS module imports from outside the two source files
(wmpl.Utils.TrajConversions and numpy), kept abstract: `date2JD` computes a
Julian date from calendar fields, `radians` is degree-to-radian conversion,
`J2000_JD` is the J2000.0 epoch constant, `equatorialCoordPrecession` and
`raDec2AltAz` are the vectorized astrometric transforms applied per element. -/
structure ExtFns where
  date2JD : ℤ → ℤ → ℤ → ℤ → ℤ → ℤ → ℤ → ℚ
  radians : ℚ → ℚ
  J2000_JD : ℚ
  equatorialCoordPrecession : ℚ → ℚ → ℚ → ℚ → ℚ × ℚ
  raDec2AltAz : ℚ → ℚ → ℚ → ℚ → ℚ → ℚ × ℚ

/-- Container for meteor observations (class MeteorObservation). -/
structure MeteorObservation where
  jdt_ref : ℚ
  station_id : StationId
  latitude : ℚ
  longitude : ℚ
  height : ℚ
  fps : ℚ
  time_data : List ℚ := []
  azim_data : List ℚ := []
  elev_data : List ℚ := []
  ra_data : List ℚ := []
  dec_data : List ℚ := []
  mag_data : List (Option ℚ) := []
  abs_mag_data : List (Option ℚ) := []
deriving DecidableEq

/-- MeteorObservation.__init__: all per-point lists start empty. -/
def MeteorObservation.init (jdt_ref : ℚ) (station_id : StationId)
    (latitude longitude height fps : ℚ) : MeteorObservation :=
  { jdt_ref := jdt_ref, station_id := station_id, latitude := latitude,
    longitude := longitude, height := height, fps := fps }

/-- MeteorObservation.addPoint: append one measurement; the point time is
frame_n / fps and every angle is converted to radians on ingest. -/
def MeteorObservation.addPoint (m : MeteorObservation) (ext : ExtFns)
    (frame_n azim elev ra dec : ℚ) (mag : Option ℚ) : MeteorObservation :=
  { m with
    time_data := m.time_data ++ [frame_n / m.fps],
    azim_data := m.azim_data ++ [ext.radians azim],
    elev_data := m.elev_data ++ [ext.radians elev],
    ra_data := m.ra_data ++ [ext.radians ra],
    dec_data := m.dec_data ++ [ext.radians dec],
    mag_data := m.mag_data ++ [mag] }

/-- MeteorObservation.finish: converts the point lists to numpy arrays; the
stored contents are unchanged, so in the embedding it is the identity. -/
def MeteorObservation.finish (m : MeteorObservation) : MeteorObservation := m

/-- Python dict assignment d[k] = v on an insertion-ordered association
list: overwrite in place when the key exists, else append. -/
def dictInsert {β : Type} (d : List (StationId × β)) (k : StationId) (v : β) :
    List (StationId × β) :=
  if d.any (fun p => p.1 == k) then
    d.map (fun p => if p.1 == k then (k, v) else p)
  else d ++ [(k, v)]

/-- Python dict lookup d.get(k). -/
def dictLookup {β : Type} (d : List (StationId × β)) (k : StationId) :
    Option β :=
  (d.find? (fun p => p.1 == k)).map (fun p => p.2)

/-- Body loop of loadCameraTimeOffsets: no comment or blank line handling;
every line must yield line[0] and a float line[1]. -/
def loadOffsetLines (lines : List String) (acc : List (StationId × ℚ)) :
    Except PyErr (List (StationId × ℚ)) :=
  match lines with
  | [] => .ok acc
  | line :: rest =>
    let toks := pySplit line
    match toks[0]? with
    | none => .error .indexError
    | some t0 =>
      match toks[1]? with
      | none => .error .indexError
      | some t1 =>
        match parseFloat? t1 with
        | none => .error .valueError
        | some off => loadOffsetLines rest (dictInsert acc (coerceStationId t0) off)

/-- loadCameraTimeOffsets: skip a two-line header (next(f) twice), then read
(station_id, float offset) pairs from every remaining line. -/
def loadCameraTimeOffsets (lines : List String) :
    Except PyErr (List (StationId × ℚ)) :=
  if lines.length < 2 then .error .stopIteration
  else loadOffsetLines (lines.drop 2) []

/-- Body loop of loadCameraSites: skip lines whose first character is a hash
mark and blank lines; otherwise unpack the first four whitespace fields as
id, latitude (deg), longitude (deg, negated on load), height (km, scaled
to meters). -/
def loadSiteLines (ext : ExtFns) (lines : List String)
    (acc : List (StationId × ℚ × ℚ × ℚ)) :
    Except PyErr (List (StationId × ℚ × ℚ × ℚ)) :=
  match lines with
  | [] => .ok acc
  | line :: rest =>
    if line.startsWith "#" then loadSiteLines ext rest acc
    else if line = "" then loadSiteLines ext rest acc
    else
      let toks := pySplit line
      if 4 ≤ toks.length then
        match parseFloat? (toks.getD 1 ""), parseFloat? (toks.getD 2 ""),
              parseFloat? (toks.getD 3 "") with
        | some lat, some lon, some height =>
          loadSiteLines ext rest
            (dictInsert acc (coerceStationId (toks.getD 0 ""))
              (ext.radians lat, ext.radians (-lon), height * 1000))
        | _, _, _ => .error .valueError
      else .error .valueError

/-- loadCameraSites: skip a two-line header, then read the station records. -/
def loadCameraSites (ext : ExtFns) (lines : List String) :
    Except PyErr (List (StationId × ℚ × ℚ × ℚ)) :=
  if lines.length < 2 then .error .stopIteration
  else loadSiteLines ext (lines.drop 2) []

/-- Strip carriage returns and newlines from a line, as the chained
replace calls in loadFTPDetectInfo (removing every occurrence of a
one-character pattern equals filtering that character out). -/
def stripLine (s : String) : String :=
  String.mk (s.toList.filter (fun c => c ≠ '\n' ∧ c ≠ '\r'))

/-- Containment test for a run of five dashes, the separator-line test
written in the source as a substring membership check. -/
def hasDashRun : List Char → Bool
  | '-' :: '-' :: '-' :: '-' :: '-' :: _ => true
  | _ :: rest => hasDashRun rest
  | [] => false

/-- A line is a separator when it contains a run of five dashes. -/
def isSeparatorLine (s : String) : Bool :=
  hasDashRun s.toList

/-- Bin-name line handling of loadFTPDetectInfo: split the FF file name on
underscores, shift the token index by one for the six-token old CAMS layout,
slice the date and time substrings, parse all calendar fields as integers and
compute the reference Julian date. -/
def parseBinLine (ext : ExtFns) (line : String) : Except PyErr ℚ :=
  let toks := pySplitUnderscore line
  let sc := if toks.length = 6 then 1 else 0
  match toks[1 + sc]?, toks[2 + sc]?, toks[3 + sc]? with
  | some ff_date, some ff_time, some milliseconds =>
    let year := String.mk (ff_date.toList.take 4)
    let month := String.mk ((ff_date.toList.drop 4).take 2)
    let day := String.mk ((ff_date.toList.drop 6).take 2)
    let hour := String.mk (ff_time.toList.take 2)
    let minute := String.mk ((ff_time.toList.drop 2).take 2)
    let seconds := String.mk ((ff_time.toList.drop 4).take 2)
    match pyInt? year, pyInt? month, pyInt? day, pyInt? hour, pyInt? minute,
          pyInt? seconds, pyInt? milliseconds with
    | some y, some mo, some d, some h, some mi, some s, some ms =>
      .ok (ext.date2JD y mo d h mi s ms)
    | _, _, _, _, _, _, _ => .error .valueError
  | _, _, _ => .error .indexError

/-- Meteor-header line handling: token 0 is the station id (int-coerced),
token 3 is the frame rate parsed as a float. -/
def parseHeaderLine (line : String) : Except PyErr (StationId × ℚ) :=
  let toks := pySplit line
  match toks[0]? with
  | none => .error .indexError
  | some t0 =>
    match toks[3]? with
    | none => .error .indexError
    | some t3 =>
      match parseFloat? t3 with
      | none => .error .valueError
      | some fps => .ok (coerceStationId t0, fps)

/-- Time-offset application in the meteor-header branch. The success-path
diagnostic formats the station id with a string format code, so an
integer-coerced id makes str.format raise ValueError before the offset is
applied; the missing-offset diagnostic is a plain print and parsing proceeds
with the unadjusted Julian date. -/
def applyTimeOffset (time_offsets : Option (List (StationId × ℚ)))
    (station_id : StationId) (jdt_ref : ℚ) : Except PyErr ℚ :=
  match time_offsets with
  | none => .ok jdt_ref
  | some m =>
    match dictLookup m station_id with
    | some t_offset =>
      match station_id with
      | .int _ => .error .valueError
      | .str _ => .ok (jdt_ref + t_offset / 86400)
    | none => .ok jdt_ref

/-- One measurement point parsed from a point line. -/
structure PointData where
  frame_n : ℚ
  ra : ℚ
  dec : ℚ
  azim : ℚ
  elev : ℚ
  mag : Option ℚ
deriving DecidableEq

/-- Float parse of token i of a whitespace-split line: missing index raises
IndexError, an unparseable token raises ValueError. -/
def tokFloat (toks : List String) (i : ℕ) : Except PyErr ℚ :=
  match toks[i]? with
  | none => .error .indexError
  | some t =>
    match parseFloat? t with
    | none => .error .valueError
    | some q => .ok q

/-- Point-line handling of loadFTPDetectInfo: fields 0, 3, 4, 5, 6 are frame
number, right ascension, declination, azimuth and elevation; when the split
line has more than seven fields the magnitude is read from index 8, with the
token inf mapped to an absent magnitude. -/
def parsePointLine (line : String) : Except PyErr PointData :=
  let toks := pySplit line
  do
    let frame_n ← tokFloat toks 0
    let ra ← tokFloat toks 3
    let dec ← tokFloat toks 4
    let azim ← tokFloat toks 5
    let elev ← tokFloat toks 6
    let mag ←
      if 7 < toks.length then
        match toks[8]? with
        | none => .error .indexError
        | some t =>
          if t = "inf" then pure none
          else
            match parseFloat? t with
            | none => .error .valueError
            | some q => pure (some q)
      else pure none
    return { frame_n := frame_n, ra := ra, dec := dec, azim := azim,
             elev := elev, mag := mag }

/-- Loop state of loadFTPDetectInfo: the output list, the current meteor
(never reset to None once set), the three next-line flags, the reference
Julian date of the last bin line, and whether the unknown-station break has
fired. -/
structure ParseState where
  meteor_list : List MeteorObservation
  current_meteor : Option MeteorObservation
  bin_name : Bool
  cal_name : Bool
  meteor_header : Bool
  jdt_ref : ℚ
  broke : Bool
deriving DecidableEq

/-- State before the first body line (jdt_ref is unassigned in the source
until the first bin line; it is only read after a bin line has set it, so the
initial value is irrelevant and fixed to 0 here). -/
def initParseState : ParseState :=
  { meteor_list := [], current_meteor := none, bin_name := false,
    cal_name := false, meteor_header := false, jdt_ref := 0, broke := false }

/-- One iteration of the loadFTPDetectInfo line loop, in source order: skip
empty lines, separator check (finalizing and appending the current meteor
without clearing it), bin-name line, calibration line, meteor-header line
(breaking out of the loop when the station is not in the site catalog), and
otherwise a measurement point when a current meteor exists. -/
def processLine (ext : ExtFns) (stations : List (StationId × ℚ × ℚ × ℚ))
    (time_offsets : Option (List (StationId × ℚ))) (st : ParseState)
    (rawLine : String) : Except PyErr ParseState :=
  if st.broke then .ok st
  else
    let line := stripLine rawLine
    if line = "" then .ok st
    else if isSeparatorLine line then
      .ok { st with bin_name := true,
                    meteor_list :=
                      match st.current_meteor with
                      | some m => st.meteor_list ++ [m.finish]
                      | none => st.meteor_list }
    else if st.bin_name then
      match parseBinLine ext line with
      | .error e => .error e
      | .ok jdt =>
        .ok { st with bin_name := false, cal_name := true, jdt_ref := jdt }
    else if st.cal_name then
      .ok { st with cal_name := false, meteor_header := true }
    else if st.meteor_header then
      match parseHeaderLine line with
      | .error e => .error e
      | .ok (station_id, fps) =>
        match applyTimeOffset time_offsets station_id st.jdt_ref with
        | .error e => .error e
        | .ok jdt2 =>
          match dictLookup stations station_id with
          | some (lat, lon, height) =>
            .ok { st with meteor_header := false, jdt_ref := jdt2,
                          current_meteor :=
                            some (MeteorObservation.init jdt2 station_id lat
                              lon height fps) }
          | none =>
            .ok { st with meteor_header := false, jdt_ref := jdt2,
                          broke := true }
    else
      match st.current_meteor with
      | none => .ok st
      | some m =>
        match parsePointLine line with
        | .error e => .error e
        | .ok p =>
          .ok { st with current_meteor :=
                          some (m.addPoint ext p.frame_n p.azim p.elev p.ra
                            p.dec p.mag) }

/-- Run the line loop over a list of body lines. -/
def runLines (ext : ExtFns) (stations : List (StationId × ℚ × ℚ × ℚ))
    (time_offsets : Option (List (StationId × ℚ))) :
    ParseState → List String → Except PyErr ParseState
  | st, [] => .ok st
  | st, l :: ls =>
    match processLine ext stations time_offsets st l with
    | .error e => .error e
    | .ok st2 => runLines ext stations time_offsets st2 ls

/-- The append after the loop: a still-referenced current meteor is finished
and appended once more. -/
def finalFlush (st : ParseState) : List MeteorObservation :=
  match st.current_meteor with
  | some m => st.meteor_list ++ [m.finish]
  | none => st.meteor_list

/-- loadFTPDetectInfo: skip the 11-line header unconditionally (a shorter
file makes next(f) raise StopIteration), run the line state machine, then
append the meteor the current variable still references, if any. -/
def loadFTPDetectInfo (ext : ExtFns) (lines : List String)
    (stations : List (StationId × ℚ × ℚ × ℚ))
    (time_offsets : Option (List (StationId × ℚ))) :
    Except PyErr (List MeteorObservation) :=
  if lines.length < 11 then .error .stopIteration
  else
    match runLines ext stations time_offsets initParseState (lines.drop 11) with
    | .error e => .error e
    | .ok st => .ok (finalFlush st)

/-- Precession step of prepareObservations for one meteor: precess every
ra/dec pair from J2000 to the shared epoch of date, then recompute azimuth
and elevation from the precessed coordinates at the stations location. The
reference Julian date and the time array are untouched. -/
def precessMeteor (ext : ExtFns) (jdt_ref : ℚ) (m : MeteorObservation) :
    MeteorObservation :=
  let prec := (m.ra_data.zip m.dec_data).map
    (fun p => ext.equatorialCoordPrecession ext.J2000_JD jdt_ref p.1 p.2)
  let ra2 := prec.map Prod.fst
  let dec2 := prec.map Prod.snd
  let altaz := (ra2.zip dec2).map
    (fun p => ext.raDec2AltAz p.1 p.2 jdt_ref m.latitude m.longitude)
  { m with ra_data := ra2, dec_data := dec2,
           azim_data := altaz.map Prod.fst,
           elev_data := altaz.map Prod.snd }

/-- Time shift of the reference meteor in prepareObservations: move the
reference Julian date forward by the first time sample and subtract that
sample from the whole time array. -/
def timeNormalizeRef (ref : MeteorObservation) (tsec_delta : ℚ) :
    MeteorObservation :=
  { ref with jdt_ref := ref.jdt_ref + tsec_delta / 86400,
             time_data := ref.time_data.map (fun t => t - tsec_delta) }

/-- Time shift of a non-reference meteor in prepareObservations: subtract the
Julian-date difference to the shared epoch from its epoch and add the
equivalent seconds to its time array. -/
def timeNormalizeOther (jdt_ref_shared : ℚ) (meteor : MeteorObservation) :
    MeteorObservation :=
  let jdt_diff := meteor.jdt_ref - jdt_ref_shared
  let tsec_diff := jdt_diff * 86400
  { meteor with jdt_ref := meteor.jdt_ref - jdt_diff,
                time_data := meteor.time_data.map (fun t => t + tsec_diff) }

/-- prepareObservations: for a nonempty list, shift the first meteor so its
first time sample is zero (moving its reference Julian date forward by the
same amount), shift every other meteor onto the adjusted reference epoch,
then precess all meteors to the epoch of date. An empty list returns the
null result. Reading the first time sample of a meteor without points raises
IndexError. -/
def prepareObservations (ext : ExtFns) (meteor_list : List MeteorObservation) :
    Except PyErr (Option (ℚ × List MeteorObservation)) :=
  match meteor_list with
  | [] => .ok none
  | ref :: rest =>
    match ref.time_data.head? with
    | none => .error .indexError
    | some tsec_delta =>
      let ref2 := timeNormalizeRef ref tsec_delta
      let rest2 := rest.map (timeNormalizeOther ref2.jdt_ref)
      let jdt_ref := ref2.jdt_ref
      .ok (some (jdt_ref, (ref2 :: rest2).map (precessMeteor ext jdt_ref)))

/-- The per-station data handed to a trajectory solver by one
infillTrajectory call. -/
structure Infill where
  meas1 : List ℚ
  meas2 : List ℚ
  time_data : List ℚ
  lat : ℚ
  lon : ℚ
  ele : ℚ
  station_id : Option StationId
deriving DecidableEq

/-- The external solver object as far as the adapters configure it: which
solver was constructed, its reference Julian date and the observations fed to
it (solver configuration options and the solve run itself are outside the
two source files). -/
inductive Traj where
  | original (jdt_ref : ℚ) (observations : List Infill)
  | gural (station_count : ℕ) (jdt_ref : ℚ) (observations : List Infill)
deriving DecidableEq

/-- solveTrajectoryCAMS: normalize the observations, then dispatch on the
solver selector; the original solver receives azimuth/elevation/time plus
the station id, the gural solver receives the same tuples without the id,
and any other selector prints a diagnostic and returns None. -/
def solveTrajectoryCAMS (ext : ExtFns) (meteor_list : List MeteorObservation)
    (solver : String) : Except PyErr (Option Traj) :=
  match prepareObservations ext meteor_list with
  | .error e => .error e
  | .ok none => .ok none
  | .ok (some (jdt_ref, ml)) =>
    if solver = "original" then
      .ok (some (.original jdt_ref (ml.map (fun m =>
        { meas1 := m.azim_data, meas2 := m.elev_data, time_data := m.time_data,
          lat := m.latitude, lon := m.longitude, ele := m.height,
          station_id := some m.station_id }))))
    else if solver = "gural" then
      .ok (some (.gural ml.length jdt_ref (ml.map (fun m =>
        { meas1 := m.azim_data, meas2 := m.elev_data, time_data := m.time_data,
          lat := m.latitude, lon := m.longitude, ele := m.height,
          station_id := none }))))
    else .ok none

/-- The fields of a pickled trajectory that solveTrajectoryPickle reads. -/
structure PickleTraj where
  jdt_ref : ℚ
  observations : List Infill
deriving DecidableEq

/-- solveTrajectoryPickle: the local traj is assigned only in the two
recognized solver branches; an unrecognized selector prints a diagnostic and
falls through to `traj.run()` / `return traj`, where the unassigned local
raises UnboundLocalError on either path. -/
def solveTrajectoryPickle (traj_p : PickleTraj) (_only_plot : Bool)
    (solver : String) : Except PyErr Traj :=
  let traj : Option Traj :=
    if solver = "original" then
      some (.original traj_p.jdt_ref traj_p.observations)
    else if solver = "gural" then
      some (.gural traj_p.observations.length traj_p.jdt_ref
        traj_p.observations)
    else none
  match traj with
  | some t => .ok t
  | none => .error .unboundLocalError

/-- A concrete instantiation of the external routines, used to evaluate the
embedding on sample inputs (any instantiation works for the theorems that
quantify over `ExtFns`). -/
def extSample : ExtFns :=
  { date2JD := fun y mo d h mi s ms =>
      (y * 366 + mo * 31 + d : ℚ) +
        ((h * 3600 + mi * 60 + s : ℚ) + (ms : ℚ) / 1000) / 86400,
    radians := fun d => d,
    J2000_JD := 2451545,
    equatorialCoordPrecession := fun _ _ r d => (r, d),
    raDec2AltAz := fun r d _ _ _ => (r, d) }

@[simp] theorem addPoint_time_data (m : MeteorObservation) (ext : ExtFns)
    (f a e r d : ℚ) (mg : Option ℚ) :
    (m.addPoint ext f a e r d mg).time_data = m.time_data ++ [f / m.fps] := rfl

@[simp] theorem addPoint_azim_data (m : MeteorObservation) (ext : ExtFns)
    (f a e r d : ℚ) (mg : Option ℚ) :
    (m.addPoint ext f a e r d mg).azim_data = m.azim_data ++ [ext.radians a] := rfl

@[simp] theorem addPoint_elev_data (m : MeteorObservation) (ext : ExtFns)
    (f a e r d : ℚ) (mg : Option ℚ) :
    (m.addPoint ext f a e r d mg).elev_data = m.elev_data ++ [ext.radians e] := rfl

@[simp] theorem addPoint_ra_data (m : MeteorObservation) (ext : ExtFns)
    (f a e r d : ℚ) (mg : Option ℚ) :
    (m.addPoint ext f a e r d mg).ra_data = m.ra_data ++ [ext.radians r] := rfl

@[simp] theorem addPoint_dec_data (m : MeteorObservation) (ext : ExtFns)
    (f a e r d : ℚ) (mg : Option ℚ) :
    (m.addPoint ext f a e r d mg).dec_data = m.dec_data ++ [ext.radians d] := rfl

@[simp] theorem addPoint_mag_data (m : MeteorObservation) (ext : ExtFns)
    (f a e r d : ℚ) (mg : Option ℚ) :
    (m.addPoint ext f a e r d mg).mag_data = m.mag_data ++ [mg] := rfl

@[simp] theorem addPoint_fps (m : MeteorObservation) (ext : ExtFns)
    (f a e r d : ℚ) (mg : Option ℚ) :
    (m.addPoint ext f a e r d mg).fps = m.fps := rfl

@[simp] theorem finish_eq (m : MeteorObservation) : m.finish = m := rfl

/-- The sequence of addPoint calls the parser performs on one observation. -/
def buildMeteor (ext : ExtFns) (m : MeteorObservation) (pts : List PointData) :
    MeteorObservation :=
  pts.foldl (fun acc p => acc.addPoint ext p.frame_n p.azim p.elev p.ra p.dec
    p.mag) m

/-- All per-point lists of one observation have the same length. -/
def equalLengths (m : MeteorObservation) : Prop :=
  m.time_data.length = m.azim_data.length ∧
  m.time_data.length = m.elev_data.length ∧
  m.time_data.length = m.ra_data.length ∧
  m.time_data.length = m.dec_data.length ∧
  m.time_data.length = m.mag_data.length

theorem buildMeteor_nil (ext : ExtFns) (m : MeteorObservation) :
    buildMeteor ext m [] = m := rfl

theorem buildMeteor_cons (ext : ExtFns) (m : MeteorObservation)
    (p : PointData) (ps : List PointData) :
    buildMeteor ext m (p :: ps) =
      buildMeteor ext (m.addPoint ext p.frame_n p.azim p.elev p.ra p.dec p.mag)
        ps := rfl

theorem buildMeteor_fps (ext : ExtFns) (m : MeteorObservation)
    (pts : List PointData) : (buildMeteor ext m pts).fps = m.fps := by
  induction pts generalizing m with
  | nil => rfl
  | cons p ps ih => rw [buildMeteor_cons, ih, addPoint_fps]

theorem buildMeteor_time_data (ext : ExtFns) (m : MeteorObservation)
    (pts : List PointData) :
    (buildMeteor ext m pts).time_data =
      m.time_data ++ pts.map (fun p => p.frame_n / m.fps) := by
  induction pts generalizing m with
  | nil => simp [buildMeteor_nil]
  | cons p ps ih =>
    rw [buildMeteor_cons, ih]
    simp

theorem buildMeteor_azim_data (ext : ExtFns) (m : MeteorObservation)
    (pts : List PointData) :
    (buildMeteor ext m pts).azim_data =
      m.azim_data ++ pts.map (fun p => ext.radians p.azim) := by
  induction pts generalizing m with
  | nil => simp [buildMeteor_nil]
  | cons p ps ih =>
    rw [buildMeteor_cons, ih]
    simp

theorem buildMeteor_elev_data (ext : ExtFns) (m : MeteorObservation)
    (pts : List PointData) :
    (buildMeteor ext m pts).elev_data =
      m.elev_data ++ pts.map (fun p => ext.radians p.elev) := by
  induction pts generalizing m with
  | nil => simp [buildMeteor_nil]
  | cons p ps ih =>
    rw [buildMeteor_cons, ih]
    simp

theorem buildMeteor_ra_data (ext : ExtFns) (m : MeteorObservation)
    (pts : List PointData) :
    (buildMeteor ext m pts).ra_data =
      m.ra_data ++ pts.map (fun p => ext.radians p.ra) := by
  induction pts generalizing m with
  | nil => simp [buildMeteor_nil]
  | cons p ps ih =>
    rw [buildMeteor_cons, ih]
    simp

theorem buildMeteor_dec_data (ext : ExtFns) (m : MeteorObservation)
    (pts : List PointData) :
    (buildMeteor ext m pts).dec_data =
      m.dec_data ++ pts.map (fun p => ext.radians p.dec) := by
  induction pts generalizing m with
  | nil => simp [buildMeteor_nil]
  | cons p ps ih =>
    rw [buildMeteor_cons, ih]
    simp

theorem buildMeteor_mag_data (ext : ExtFns) (m : MeteorObservation)
    (pts : List PointData) :
    (buildMeteor ext m pts).mag_data =
      m.mag_data ++ pts.map (fun p => p.mag) := by
  induction pts generalizing m with
  | nil => simp [buildMeteor_nil]
  | cons p ps ih =>
    rw [buildMeteor_cons, ih]
    simp

/-- Claim C8 (amended): after construction, after every addPoint call and
after finish, the six per-point sequences of a MeteorObservation have equal
length; and the time values are non-decreasing provided the points are added
with non-decreasing frame numbers and a positive frame rate (the code itself
never reorders points, so monotonicity holds exactly when the input frames
are monotone). -/
theorem meteorObservation_invariants (ext : ExtFns) (jdt : ℚ)
    (sid : StationId) (lat lon hgt fps : ℚ) (pts : List PointData) (k : ℕ) :
    equalLengths
      (buildMeteor ext (MeteorObservation.init jdt sid lat lon hgt fps)
        (pts.take k)) ∧
    equalLengths
      ((buildMeteor ext (MeteorObservation.init jdt sid lat lon hgt fps)
        pts).finish) ∧
    (0 < fps → List.Chain' (fun a b => a ≤ b) (pts.map PointData.frame_n) →
      List.Chain' (fun a b => a ≤ b)
        (buildMeteor ext (MeteorObservation.init jdt sid lat lon hgt fps)
          (pts.take k)).time_data) := by
  refine ⟨?_, ?_, ?_⟩
  · simp [equalLengths, buildMeteor_time_data, buildMeteor_azim_data,
      buildMeteor_elev_data, buildMeteor_ra_data, buildMeteor_dec_data,
      buildMeteor_mag_data, MeteorObservation.init]
  · simp [equalLengths, buildMeteor_time_data, buildMeteor_azim_data,
      buildMeteor_elev_data, buildMeteor_ra_data, buildMeteor_dec_data,
      buildMeteor_mag_data, MeteorObservation.init]
  · intro hfps hchain
    rw [buildMeteor_time_data]
    simp only [MeteorObservation.init, List.nil_append]
    rw [List.map_take]
    apply List.Chain'.take
    rw [List.chain'_map] at hchain ⊢
    exact hchain.imp (fun a b hab =>
      div_le_div_of_nonneg_right hab (le_of_lt hfps))

/-- Counterexample to claim C8 as stated: two addPoint calls with decreasing
frame numbers produce a strictly decreasing time sequence, so the
non-decreasing-time invariant does not hold for every MeteorObservation. -/
theorem meteorObservation_time_decreasing_cx :
    ¬ List.Chain' (fun a b => a ≤ b)
      (((MeteorObservation.init 0 (.str "A") 0 0 0 1).addPoint extSample 1 0 0
        0 0 none).addPoint extSample 0 0 0 0 0 none).time_data := by
  simp [MeteorObservation.init, MeteorObservation.addPoint]

/-- Witness for claim C8 at a concrete input: two points with frames 0 and 2
at 25 frames per second. -/
theorem meteorObservation_invariants_witness :
    equalLengths
      (buildMeteor extSample (MeteorObservation.init 0 (.int 1) 0 0 0 25)
        ([⟨0, 1, 2, 3, 4, none⟩, ⟨2, 1, 2, 3, 4, some 1⟩].take 2)) ∧
    List.Chain' (fun a b => a ≤ b)
      (buildMeteor extSample (MeteorObservation.init 0 (.int 1) 0 0 0 25)
        ([(⟨0, 1, 2, 3, 4, none⟩ : PointData),
          ⟨2, 1, 2, 3, 4, some 1⟩].take 2)).time_data :=
  ⟨(meteorObservation_invariants extSample 0 (.int 1) 0 0 0 25
      [⟨0, 1, 2, 3, 4, none⟩, ⟨2, 1, 2, 3, 4, some 1⟩] 2).1,
   (meteorObservation_invariants extSample 0 (.int 1) 0 0 0 25
      [⟨0, 1, 2, 3, 4, none⟩, ⟨2, 1, 2, 3, 4, some 1⟩] 2).2.2
     (by norm_num) (by simp)⟩

@[simp] theorem precessMeteor_jdt_ref (ext : ExtFns) (jdt : ℚ)
    (m : MeteorObservation) : (precessMeteor ext jdt m).jdt_ref = m.jdt_ref :=
  rfl

@[simp] theorem precessMeteor_time_data (ext : ExtFns) (jdt : ℚ)
    (m : MeteorObservation) :
    (precessMeteor ext jdt m).time_data = m.time_data := rfl

/-- Claim C1: for every nonempty observation list whose reference (first)
observation has at least one time sample, prepareObservations succeeds and
returns a shared epoch jdt with: as many observations as given, first time
sample of the reference observation exactly 0, every observation carrying
the identical reference epoch jdt, and every time array shifted by exactly
the seconds equivalent of the epoch adjustment, so that each sample still
denotes the same absolute instant jdt + t / 86400. -/
theorem prepareObservations_normalized (ext : ExtFns)
    (ref : MeteorObservation) (rest : List MeteorObservation)
    (h : ref.time_data ≠ []) :
    ∃ jdt out, prepareObservations ext (ref :: rest) = .ok (some (jdt, out)) ∧
      out.length = rest.length + 1 ∧
      (∃ m0, out.head? = some m0 ∧ m0.time_data.head? = some 0) ∧
      (∀ m ∈ out, m.jdt_ref = jdt) ∧
      (∀ (i : ℕ) (mi mo : MeteorObservation),
        (ref :: rest)[i]? = some mi → out[i]? = some mo →
        mo.time_data =
          mi.time_data.map (fun t => t - 86400 * (jdt - mi.jdt_ref))) := by
  obtain ⟨t0, ts, hts⟩ := List.exists_cons_of_ne_nil h
  have hh : ref.time_data.head? = some t0 := by rw [hts]; rfl
  refine ⟨(timeNormalizeRef ref t0).jdt_ref,
    (timeNormalizeRef ref t0 ::
      rest.map (timeNormalizeOther (timeNormalizeRef ref t0).jdt_ref)).map
      (precessMeteor ext (timeNormalizeRef ref t0).jdt_ref),
    ?_, ?_, ?_, ?_, ?_⟩
  · simp only [prepareObservations, hh]
  · simp
  · refine ⟨_, rfl, ?_⟩
    simp [timeNormalizeRef, hts]
  · intro m hm
    simp only [List.mem_map, List.mem_cons] at hm
    obtain ⟨x, hx, rfl⟩ := hm
    rcases hx with rfl | hx
    · rfl
    · obtain ⟨y, _, rfl⟩ := hx
      simp only [precessMeteor_jdt_ref, timeNormalizeOther]
      ring
  · intro i mi mo hmi hmo
    cases i with
    | zero =>
      simp only [List.getElem?_cons_zero, Option.some.injEq] at hmi
      simp only [List.map_cons, List.getElem?_cons_zero,
        Option.some.injEq] at hmo
      subst hmi
      subst hmo
      simp only [precessMeteor_time_data, timeNormalizeRef, hts]
      apply List.map_congr_left
      intro t _
      ring
    | succ n =>
      simp only [List.getElem?_cons_succ] at hmi
      simp only [List.map_cons, List.getElem?_cons_succ, List.getElem?_map,
        hmi, Option.map_some', Option.some.injEq] at hmo
      subst hmo
      simp only [precessMeteor_time_data, timeNormalizeOther]
      apply List.map_congr_left
      intro t _
      ring

/-- Two concrete observations used to evaluate the normalization and solver
adapters. -/
def meteorWitA : MeteorObservation :=
  { jdt_ref := 100, station_id := .int 1, latitude := 1, longitude := 2,
    height := 3, fps := 25, time_data := [5, 6], azim_data := [10, 11],
    elev_data := [20, 21], ra_data := [30, 31], dec_data := [40, 41],
    mag_data := [none, some 2] }

/-- A second concrete observation from another station. -/
def meteorWitB : MeteorObservation :=
  { jdt_ref := 101, station_id := .str "X9", latitude := 4, longitude := 5,
    height := 6, fps := 30, time_data := [7], azim_data := [12],
    elev_data := [22], ra_data := [32], dec_data := [42],
    mag_data := [some 3] }

/-- Witness for claim C1 at a concrete two-observation list. -/
theorem prepareObservations_normalized_witness :
    meteorWitA.time_data ≠ [] ∧
    (∃ jdt out,
      prepareObservations extSample (meteorWitA :: [meteorWitB]) =
        .ok (some (jdt, out)) ∧
      out.length = [meteorWitB].length + 1 ∧
      (∃ m0, out.head? = some m0 ∧ m0.time_data.head? = some 0) ∧
      (∀ m ∈ out, m.jdt_ref = jdt) ∧
      (∀ (i : ℕ) (mi mo : MeteorObservation),
        (meteorWitA :: [meteorWitB])[i]? = some mi →
        out[i]? = some mo →
        mo.time_data =
          mi.time_data.map (fun t => t - 86400 * (jdt - mi.jdt_ref)))) :=
  ⟨by decide,
   prepareObservations_normalized extSample meteorWitA [meteorWitB]
     (by decide)⟩

/-- Claim C4: a six-token (old layout, token shift 1) and a five-token (new
layout, shift 0) bin identifier that carry the same date, time and
millisecond tokens in the positions of their layout produce the identical
computed reference Julian date, whatever the date2JD routine is. -/
theorem parseBinLine_layouts_agree (ext : ExtFns) (l6 l5 : String)
    (h6 : (pySplitUnderscore l6).length = 6)
    (h5 : (pySplitUnderscore l5).length = 5)
    (hd : (pySplitUnderscore l6)[2]? = (pySplitUnderscore l5)[1]?)
    (ht : (pySplitUnderscore l6)[3]? = (pySplitUnderscore l5)[2]?)
    (hm : (pySplitUnderscore l6)[4]? = (pySplitUnderscore l5)[3]?) :
    parseBinLine ext l6 = parseBinLine ext l5 := by
  simp only [parseBinLine, h6, h5]
  norm_num
  rw [hd, ht, hm]

/-- Witness for claim C4: the same timestamp in the two layouts. -/
theorem parseBinLine_layouts_agree_witness :
    (pySplitUnderscore "FF_453_20180614_010203_456_0.bin").length = 6 ∧
    (pySplitUnderscore "FF453_20180614_010203_456_0.bin").length = 5 ∧
    parseBinLine extSample "FF_453_20180614_010203_456_0.bin" =
      parseBinLine extSample "FF453_20180614_010203_456_0.bin" :=
  ⟨by decide, by decide,
   parseBinLine_layouts_agree extSample _ _ (by decide) (by decide)
     (by decide) (by decide) (by decide)⟩

/-- Counterexample to claim C6 as stated: a point line with exactly eight
whitespace fields (an 8th field exists) makes the magnitude read fail with
IndexError rather than yield the 8th field, a line with five fields fails
with IndexError rather than yield an absent magnitude, and on a long line
the magnitude is taken from the 9th field (index 8), not the 8th. -/
theorem parsePointLine_eighth_field_cx :
    parsePointLine "12.0 x x 15.5 45.0 90.0 30.0 3.5" = .error .indexError ∧
    parsePointLine "12.0 x x 15.5 45.0" = .error .indexError ∧
    parsePointLine "12.0 x x 15.5 45.0 90.0 30.0 0 3.5 0 0" =
      .ok ⟨12, 31 / 2, 45, 90, 30, some (7 / 2)⟩ := by
  with_unfolding_all decide

/-- Claim C6 (amended): on a point line whose five numeric fields parse, a
line of at most seven fields yields an absent magnitude; a line of exactly
eight fields raises IndexError; on a longer line the magnitude comes from
the field at index 8 (the 9th field), with the token inf mapped to an absent
magnitude and any other parseable token to its float value. -/
theorem parsePointLine_magnitude (l : String) (f0 f3 f4 f5 f6 : ℚ)
    (h0 : tokFloat (pySplit l) 0 = .ok f0)
    (h3 : tokFloat (pySplit l) 3 = .ok f3)
    (h4 : tokFloat (pySplit l) 4 = .ok f4)
    (h5 : tokFloat (pySplit l) 5 = .ok f5)
    (h6 : tokFloat (pySplit l) 6 = .ok f6) :
    ((pySplit l).length ≤ 7 →
      parsePointLine l = .ok ⟨f0, f3, f4, f5, f6, none⟩) ∧
    ((pySplit l).length = 8 → parsePointLine l = .error .indexError) ∧
    (∀ t, (pySplit l)[8]? = some t → t = "inf" →
      parsePointLine l = .ok ⟨f0, f3, f4, f5, f6, none⟩) ∧
    (∀ t q, (pySplit l)[8]? = some t → t ≠ "inf" → parseFloat? t = some q →
      parsePointLine l = .ok ⟨f0, f3, f4, f5, f6, some q⟩) := by
  refine ⟨?_, ?_, ?_, ?_⟩
  · intro hlen
    simp only [parsePointLine, h0, h3, h4, h5, h6, bind, Except.bind]
    rw [if_neg (by omega)]
    rfl
  · intro hlen
    have h8 : (pySplit l)[8]? = none := by
      rw [List.getElem?_eq_none]
      omega
    simp only [parsePointLine, h0, h3, h4, h5, h6, bind, Except.bind, h8]
    rw [if_pos (by omega)]
  · intro t h8 hinf
    subst hinf
    have hlt : 8 < (pySplit l).length := by
      rcases Nat.lt_or_ge 8 (pySplit l).length with hc | hc
      · exact hc
      · rw [List.getElem?_eq_none hc] at h8
        cases h8
    simp only [parsePointLine, h0, h3, h4, h5, h6, bind, Except.bind, h8]
    rw [if_pos (by omega)]
    simp [pure, Except.pure]
  · intro t q h8 ht hq
    have hlt : 8 < (pySplit l).length := by
      rcases Nat.lt_or_ge 8 (pySplit l).length with hc | hc
      · exact hc
      · rw [List.getElem?_eq_none hc] at h8
        cases h8
    simp only [parsePointLine, h0, h3, h4, h5, h6, bind, Except.bind, h8]
    rw [if_pos (by omega), if_neg ht, hq]
    rfl

/-- Witness for claim C6 on concrete point lines: a seven-field line, an
inf magnitude and a numeric magnitude. -/
theorem parsePointLine_magnitude_witness :
    tokFloat (pySplit "3.0 x x 10.0 20.0 30.0 40.0") 0 = .ok 3 ∧
    parsePointLine "3.0 x x 10.0 20.0 30.0 40.0" =
      .ok ⟨3, 10, 20, 30, 40, none⟩ ∧
    parsePointLine "3.0 x x 10.0 20.0 30.0 40.0 0 inf" =
      .ok ⟨3, 10, 20, 30, 40, none⟩ ∧
    parsePointLine "3.0 x x 10.0 20.0 30.0 40.0 0 7.5" =
      .ok ⟨3, 10, 20, 30, 40, some (15 / 2)⟩ :=
  ⟨by with_unfolding_all decide,
   (parsePointLine_magnitude "3.0 x x 10.0 20.0 30.0 40.0" 3 10 20 30 40
     (by with_unfolding_all decide) (by with_unfolding_all decide)
     (by with_unfolding_all decide) (by with_unfolding_all decide)
     (by with_unfolding_all decide)).1 (by decide),
   (parsePointLine_magnitude "3.0 x x 10.0 20.0 30.0 40.0 0 inf" 3 10 20 30 40
     (by with_unfolding_all decide) (by with_unfolding_all decide)
     (by with_unfolding_all decide) (by with_unfolding_all decide)
     (by with_unfolding_all decide)).2.2.1 "inf" (by decide) rfl,
   (parsePointLine_magnitude "3.0 x x 10.0 20.0 30.0 40.0 0 7.5" 3 10 20 30 40
     (by with_unfolding_all decide) (by with_unfolding_all decide)
     (by with_unfolding_all decide) (by with_unfolding_all decide)
     (by with_unfolding_all decide)).2.2.2 "7.5" (15 / 2) (by decide)
     (by decide) (by with_unfolding_all decide)⟩

/-- Claim C7: the site record with id 1, latitude 43.10, longitude -81.30 and
height 200.0 loads to key int 1 with latitude radians(43.10), longitude
radians(81.30) (the file value negated) and height 200000 meters, for any
degree-to-radian routine. -/
theorem loadCameraSites_record (ext : ExtFns) :
    loadCameraSites ext ["header one", "header two", "1 43.10 -81.30 200.0"] =
      .ok [(.int 1, ext.radians (431 / 10), ext.radians (813 / 10),
        200000)] := by
  with_unfolding_all rfl

/-- A body line of the time-offset file is readable exactly when it has a
first token and a second token that parses as a float. -/
def goodOffsetLine (l : String) : Bool :=
  match pySplit l with
  | _ :: t1 :: _ => (parseFloat? t1).isSome
  | _ => false

theorem loadOffsetLines_isOk (lines : List String)
    (acc : List (StationId × ℚ)) :
    isOkE (loadOffsetLines lines acc) = lines.all goodOffsetLine := by
  induction lines generalizing acc with
  | nil => rfl
  | cons l ls ih =>
    rcases hsp : pySplit l with _ | ⟨a, _ | ⟨b, rest⟩⟩
    · simp [loadOffsetLines, hsp, goodOffsetLine, isOkE]
    · simp [loadOffsetLines, hsp, goodOffsetLine, isOkE]
    · cases hf : parseFloat? b with
      | none =>
        simp [loadOffsetLines, hsp, goodOffsetLine, isOkE, hf]
      | some q =>
        have hstep : loadOffsetLines (l :: ls) acc =
            loadOffsetLines ls (dictInsert acc (coerceStationId a) q) := by
          simp [loadOffsetLines, hsp, hf]
        rw [hstep, ih, List.all_cons]
        simp [goodOffsetLine, hsp, hf]

/-- Claim C10: loadCameraTimeOffsets does no blank-line or comment skipping
after the two-line header: it succeeds exactly when every body line has at
least two whitespace fields with the second parseable as a float (so any
blank line, single-token comment line or short line fails the whole load and
no mapping is returned), while loadCameraSites accepts a file containing
blank and comment lines. -/
theorem loadCameraTimeOffsets_strict (lines : List String)
    (h : 2 ≤ lines.length) :
    (isOkE (loadCameraTimeOffsets lines) = true ↔
      ∀ l ∈ lines.drop 2, 2 ≤ (pySplit l).length ∧
        (parseFloat? ((pySplit l).getD 1 "")).isSome = true) ∧
    ((∃ l ∈ lines.drop 2, (pySplit l).length < 2) →
      isOkE (loadCameraTimeOffsets lines) = false) ∧
    (∀ ext : ExtFns,
      isOkE (loadCameraSites ext
        ["h1", "h2", "", "# comment", "1 2.0 3.0 4.0"]) = true) := by
  have hmain : isOkE (loadCameraTimeOffsets lines) = true ↔
      ∀ l ∈ lines.drop 2, 2 ≤ (pySplit l).length ∧
        (parseFloat? ((pySplit l).getD 1 "")).isSome = true := by
    rw [loadCameraTimeOffsets, if_neg (by omega)]
    rw [loadOffsetLines_isOk, List.all_eq_true]
    constructor
    · intro hall l hl
      have := hall l hl
      rcases hsp : pySplit l with _ | ⟨a, _ | ⟨b, rest⟩⟩ <;>
        simp [goodOffsetLine, hsp] at this ⊢
      exact this
    · intro hall l hl
      have := hall l hl
      rcases hsp : pySplit l with _ | ⟨a, _ | ⟨b, rest⟩⟩ <;>
        simp [goodOffsetLine, hsp] at this ⊢
      exact this
  refine ⟨hmain, ?_, ?_⟩
  · rintro ⟨l, hl, hshort⟩
    rcases hok : isOkE (loadCameraTimeOffsets lines) with _ | _
    · rfl
    · have := (hmain.mp hok l hl).1
      omega
  · intro ext
    with_unfolding_all rfl

/-- Witness for claim C10 on a concrete three-line file. -/
theorem loadCameraTimeOffsets_strict_witness :
    2 ≤ (["ha", "hb", "1 2.5"] : List String).length ∧
    (isOkE (loadCameraTimeOffsets ["ha", "hb", "1 2.5"]) = true ↔
      ∀ l ∈ (["ha", "hb", "1 2.5"] : List String).drop 2,
        2 ≤ (pySplit l).length ∧
        (parseFloat? ((pySplit l).getD 1 "")).isSome = true) :=
  ⟨by decide,
   (loadCameraTimeOffsets_strict ["ha", "hb", "1 2.5"] (by decide)).1⟩

/-- Eleven header lines of a detection file (content irrelevant, skipped
unconditionally). -/
def hdr11 : List String := List.replicate 11 "FTPdetectinfo header"

/-- A separator line. -/
def sepLine : String := "-------------------------------------------------"

/-- A site catalog holding stations int 1 and X9. -/
def stationsWit : List (StationId × ℚ × ℚ × ℚ) :=
  [(.int 1, 1, 2, 3), (.str "X9", 4, 5, 6)]

/-- Claim C5 (evaluation at the failing input): with a time-offset mapping
holding the int-coerced station id 1, the meteor-header branch raises
ValueError while formatting the diagnostic, so the whole load fails instead
of adjusting the epoch and continuing; for a string station id present in
the mapping the offset is applied as offset/86400 and the load continues,
and a station absent from the mapping proceeds with the unadjusted epoch. -/
theorem loadFTPDetectInfo_offset_crash :
    loadFTPDetectInfo extSample
      (hdr11 ++ [sepLine, "FF453_20180614_010203_456_0.bin", "CAL_453.txt",
        "0001 0001 41 25.0"])
      stationsWit (some [(.int 1, 2)]) = .error .valueError ∧
    applyTimeOffset (some [(.str "X9", 2)]) (.str "X9") 100 =
      .ok (100 + 2 / 86400) ∧
    applyTimeOffset (some [(.int 1, 2)]) (.str "X9") 100 = .ok 100 ∧
    (loadFTPDetectInfo extSample
      (hdr11 ++ [sepLine, "FF453_20180614_010203_456_0.bin", "CAL_453.txt",
        "X9 0001 41 25.0"])
      stationsWit (some [(.str "X9", 2)])).map
        (fun l => l.map (fun m => m.station_id)) = .ok [.str "X9"] := by
  refine ⟨by decide, rfl, by decide, by decide⟩

/-- A pickled trajectory with one observation, used to evaluate the rerun
adapter. -/
def pickleWit : PickleTraj :=
  { jdt_ref := 100, observations := [⟨[1], [2], [3], 4, 5, 6, some (.int 1)⟩] }

/-- Claim C9 (evaluation at the failing input): solveTrajectoryCAMS returns
a result for the selector original and returns no result without raising for
an unknown selector, but solveTrajectoryPickle raises UnboundLocalError for
an unknown selector (with and without the plot-only flag) instead of
returning no result. -/
theorem unknownSolver_dispatch :
    (∃ t, solveTrajectoryCAMS extSample [meteorWitA] "original" =
      .ok (some t)) ∧
    solveTrajectoryCAMS extSample [meteorWitA] "foo" = .ok none ∧
    solveTrajectoryPickle pickleWit false "foo" = .error .unboundLocalError ∧
    solveTrajectoryPickle pickleWit true "foo" = .error .unboundLocalError := by
  refine ⟨⟨_, rfl⟩, by decide, by decide, by decide⟩

/-- One meteor block of a detection file body: the bin-name line, the
calibration line, the meteor-header line and the point lines that follow a
separator. -/
structure FTPBlock where
  binLine : String
  calLine : String
  hdrLine : String
  pointLines : List String

/-- The lines of a block as they appear in the file, led by a separator. -/
def FTPBlock.render (b : FTPBlock) (sep : String) : List String :=
  sep :: b.binLine :: b.calLine :: b.hdrLine :: b.pointLines

/-- A body line that is neither blank nor a separator. -/
def plainLineB (l : String) : Bool :=
  (stripLine l != "") && !(isSeparatorLine (stripLine l))

/-- The time-offset branch survives this station id: no mapping given, id
absent from the mapping (log and continue), or a string id present in the
mapping (the int case raises through the format code, claim C5). -/
def offsetSafe (time_offsets : Option (List (StationId × ℚ)))
    (sid : StationId) : Bool :=
  match time_offsets with
  | none => true
  | some m =>
    match dictLookup m sid with
    | some _ =>
      match sid with
      | .int _ => false
      | .str _ => true
    | none => true

/-- Conditions for one block to be consumed without error, leaving a new
in-progress meteor: bin line parses, cal line is plain, header parses to a
station the offsets do not crash on and the site catalog knows, and every
point line parses. -/
def blockOK (ext : ExtFns) (stations : List (StationId × ℚ × ℚ × ℚ))
    (time_offsets : Option (List (StationId × ℚ))) (b : FTPBlock) : Bool :=
  plainLineB b.binLine && isOkE (parseBinLine ext (stripLine b.binLine)) &&
  plainLineB b.calLine &&
  plainLineB b.hdrLine &&
  (match parseHeaderLine (stripLine b.hdrLine) with
   | .ok (sid, _) =>
     offsetSafe time_offsets sid && (dictLookup stations sid).isSome
   | .error _ => false) &&
  b.pointLines.all
    (fun l => plainLineB l && isOkE (parsePointLine (stripLine l)))

/-- Conditions for a meteor-header line referencing an unknown station: it
parses, the offsets do not crash on its id, and the id is absent from the
site catalog. -/
def unknownHdrOK (stations : List (StationId × ℚ × ℚ × ℚ))
    (time_offsets : Option (List (StationId × ℚ))) (hdrL : String) : Bool :=
  plainLineB hdrL &&
  (match parseHeaderLine (stripLine hdrL) with
   | .ok (sid, _) =>
     offsetSafe time_offsets sid && (dictLookup stations sid).isNone
   | .error _ => false)

theorem isOkE_ok {α : Type} {e : Except PyErr α} (h : isOkE e = true) :
    ∃ v, e = .ok v := by
  cases e with
  | ok v => exact ⟨v, rfl⟩
  | error e => simp [isOkE] at h

theorem plainLineB_parts {l : String} (h : plainLineB l = true) :
    stripLine l ≠ "" ∧ isSeparatorLine (stripLine l) = false := by
  simp [plainLineB] at h
  exact h

theorem offsetSafe_ok {toff : Option (List (StationId × ℚ))} {sid : StationId}
    (h : offsetSafe toff sid = true) (jdt : ℚ) :
    ∃ jdt2, applyTimeOffset toff sid jdt = .ok jdt2 := by
  cases toff with
  | none => exact ⟨jdt, rfl⟩
  | some m =>
    simp only [offsetSafe] at h
    cases hl : dictLookup m sid with
    | none => exact ⟨jdt, by simp [applyTimeOffset, hl]⟩
    | some off =>
      rw [hl] at h
      cases sid with
      | int n => simp at h
      | str s => exact ⟨jdt + off / 86400, by simp [applyTimeOffset, hl]⟩

theorem processLine_broke (ext : ExtFns)
    (stations : List (StationId × ℚ × ℚ × ℚ))
    (toff : Option (List (StationId × ℚ))) (st : ParseState) (l : String)
    (h : st.broke = true) : processLine ext stations toff st l = .ok st := by
  simp [processLine, h]

theorem runLines_broke (ext : ExtFns)
    (stations : List (StationId × ℚ × ℚ × ℚ))
    (toff : Option (List (StationId × ℚ))) (st : ParseState)
    (ls : List String) (h : st.broke = true) :
    runLines ext stations toff st ls = .ok st := by
  induction ls with
  | nil => rfl
  | cons l ls ih =>
    rw [runLines, processLine_broke ext stations toff st l h]
    exact ih

theorem runLines_cons_ok (ext : ExtFns)
    (stations : List (StationId × ℚ × ℚ × ℚ))
    (toff : Option (List (StationId × ℚ))) (st st2 : ParseState) (l : String)
    (ls : List String) (h : processLine ext stations toff st l = .ok st2) :
    runLines ext stations toff st (l :: ls) =
      runLines ext stations toff st2 ls := by
  rw [runLines, h]

theorem runLines_append (ext : ExtFns)
    (stations : List (StationId × ℚ × ℚ × ℚ))
    (toff : Option (List (StationId × ℚ))) (st : ParseState)
    (xs ys : List String) :
    runLines ext stations toff st (xs ++ ys) =
      match runLines ext stations toff st xs with
      | .ok st2 => runLines ext stations toff st2 ys
      | .error e => .error e := by
  induction xs generalizing st with
  | nil => rfl
  | cons x xs ih =>
    rw [List.cons_append, runLines, runLines]
    cases processLine ext stations toff st x with
    | error e => rfl
    | ok st2 => exact ih st2

theorem processLine_inert (ext : ExtFns)
    (stations : List (StationId × ℚ × ℚ × ℚ))
    (toff : Option (List (StationId × ℚ))) (st : ParseState) (l : String)
    (hb : st.broke = false) (h1 : st.bin_name = false)
    (h2 : st.cal_name = false) (h3 : st.meteor_header = false)
    (hc : st.current_meteor = none)
    (hs : isSeparatorLine (stripLine l) = false) :
    processLine ext stations toff st l = .ok st := by
  by_cases he : stripLine l = ""
  · simp [processLine, hb, he]
  · simp [processLine, hb, he, hs, h1, h2, h3, hc]

theorem runLines_inert (ext : ExtFns)
    (stations : List (StationId × ℚ × ℚ × ℚ))
    (toff : Option (List (StationId × ℚ))) (st : ParseState)
    (ls : List String) (hb : st.broke = false) (h1 : st.bin_name = false)
    (h2 : st.cal_name = false) (h3 : st.meteor_header = false)
    (hc : st.current_meteor = none)
    (hall : ∀ l ∈ ls, isSeparatorLine (stripLine l) = false) :
    runLines ext stations toff st ls = .ok st := by
  induction ls with
  | nil => rfl
  | cons l ls ih =>
    rw [runLines_cons_ok ext stations toff st st l ls
      (processLine_inert ext stations toff st l hb h1 h2 h3 hc
        (hall l (List.mem_cons_self l ls)))]
    exact ih (fun x hx => hall x (List.mem_cons_of_mem l hx))

theorem processLine_sep (ext : ExtFns)
    (stations : List (StationId × ℚ × ℚ × ℚ))
    (toff : Option (List (StationId × ℚ))) (st : ParseState) (l : String)
    (hb : st.broke = false) (hs : isSeparatorLine (stripLine l) = true) :
    processLine ext stations toff st l =
      .ok { st with bin_name := true,
                    meteor_list := st.meteor_list ++
                      (st.current_meteor.map MeteorObservation.finish).toList } := by
  have hne : stripLine l ≠ "" := by
    intro he
    rw [he] at hs
    exact absurd hs (by decide)
  cases hc : st.current_meteor with
  | none => simp [processLine, hb, hne, hs, hc]
  | some m => simp [processLine, hb, hne, hs, hc]

theorem processLine_bin (ext : ExtFns)
    (stations : List (StationId × ℚ × ℚ × ℚ))
    (toff : Option (List (StationId × ℚ))) (st : ParseState) (l : String)
    (jdt : ℚ) (hb : st.broke = false) (hflag : st.bin_name = true)
    (hplain : plainLineB l = true)
    (hp : parseBinLine ext (stripLine l) = .ok jdt) :
    processLine ext stations toff st l =
      .ok { st with bin_name := false, cal_name := true, jdt_ref := jdt } := by
  obtain ⟨hne, hs⟩ := plainLineB_parts hplain
  simp [processLine, hb, hne, hs, hflag, hp]

theorem processLine_cal (ext : ExtFns)
    (stations : List (StationId × ℚ × ℚ × ℚ))
    (toff : Option (List (StationId × ℚ))) (st : ParseState) (l : String)
    (hb : st.broke = false) (h1 : st.bin_name = false)
    (hflag : st.cal_name = true) (hplain : plainLineB l = true) :
    processLine ext stations toff st l =
      .ok { st with cal_name := false, meteor_header := true } := by
  obtain ⟨hne, hs⟩ := plainLineB_parts hplain
  simp [processLine, hb, hne, hs, h1, hflag]

theorem processLine_hdr_found (ext : ExtFns)
    (stations : List (StationId × ℚ × ℚ × ℚ))
    (toff : Option (List (StationId × ℚ))) (st : ParseState) (l : String)
    (sid : StationId) (fps jdt2 lat lon hgt : ℚ) (hb : st.broke = false)
    (h1 : st.bin_name = false) (h2 : st.cal_name = false)
    (hflag : st.meteor_header = true) (hplain : plainLineB l = true)
    (hp : parseHeaderLine (stripLine l) = .ok (sid, fps))
    (hoff : applyTimeOffset toff sid st.jdt_ref = .ok jdt2)
    (hlook : dictLookup stations sid = some (lat, lon, hgt)) :
    processLine ext stations toff st l =
      .ok { st with meteor_header := false, jdt_ref := jdt2,
                    current_meteor :=
                      some (MeteorObservation.init jdt2 sid lat lon hgt fps) } := by
  obtain ⟨hne, hs⟩ := plainLineB_parts hplain
  simp [processLine, hb, hne, hs, h1, h2, hflag, hp, hoff, hlook]

theorem processLine_hdr_missing (ext : ExtFns)
    (stations : List (StationId × ℚ × ℚ × ℚ))
    (toff : Option (List (StationId × ℚ))) (st : ParseState) (l : String)
    (sid : StationId) (fps jdt2 : ℚ) (hb : st.broke = false)
    (h1 : st.bin_name = false) (h2 : st.cal_name = false)
    (hflag : st.meteor_header = true) (hplain : plainLineB l = true)
    (hp : parseHeaderLine (stripLine l) = .ok (sid, fps))
    (hoff : applyTimeOffset toff sid st.jdt_ref = .ok jdt2)
    (hlook : dictLookup stations sid = none) :
    processLine ext stations toff st l =
      .ok { st with meteor_header := false, jdt_ref := jdt2,
                    broke := true } := by
  obtain ⟨hne, hs⟩ := plainLineB_parts hplain
  simp [processLine, hb, hne, hs, h1, h2, hflag, hp, hoff, hlook]

theorem processLine_point (ext : ExtFns)
    (stations : List (StationId × ℚ × ℚ × ℚ))
    (toff : Option (List (StationId × ℚ))) (st : ParseState) (l : String)
    (m : MeteorObservation) (p : PointData) (hb : st.broke = false)
    (h1 : st.bin_name = false) (h2 : st.cal_name = false)
    (h3 : st.meteor_header = false) (hc : st.current_meteor = some m)
    (hplain : plainLineB l = true)
    (hp : parsePointLine (stripLine l) = .ok p) :
    processLine ext stations toff st l =
      .ok { st with current_meteor :=
                      some (m.addPoint ext p.frame_n p.azim p.elev p.ra p.dec
                        p.mag) } := by
  obtain ⟨hne, hs⟩ := plainLineB_parts hplain
  simp [processLine, hb, hne, hs, h1, h2, h3, hc, hp]

theorem runLines_append_ok (ext : ExtFns)
    (stations : List (StationId × ℚ × ℚ × ℚ))
    (toff : Option (List (StationId × ℚ))) (st st2 : ParseState)
    (xs ys : List String)
    (h : runLines ext stations toff st xs = .ok st2) :
    runLines ext stations toff st (xs ++ ys) =
      runLines ext stations toff st2 ys := by
  rw [runLines_append, h]

theorem runPoints (ext : ExtFns) (stations : List (StationId × ℚ × ℚ × ℚ))
    (toff : Option (List (StationId × ℚ))) (pts : List String)
    (st : ParseState) (m : MeteorObservation) (hb : st.broke = false)
    (h1 : st.bin_name = false) (h2 : st.cal_name = false)
    (h3 : st.meteor_header = false) (hc : st.current_meteor = some m)
    (hall : ∀ l ∈ pts, plainLineB l = true ∧
      isOkE (parsePointLine (stripLine l)) = true) :
    ∃ m2, runLines ext stations toff st pts =
      .ok { st with current_meteor := some m2 } := by
  induction pts generalizing st m with
  | nil =>
    refine ⟨m, ?_⟩
    rw [runLines, ← hc]
  | cons l ls ih =>
    obtain ⟨hpl, hok⟩ := hall l (List.mem_cons_self l ls)
    obtain ⟨p, hp⟩ := isOkE_ok hok
    rw [runLines_cons_ok ext stations toff st _ l ls
      (processLine_point ext stations toff st l m p hb h1 h2 h3 hc hpl hp)]
    exact ih _ _ hb h1 h2 h3 rfl
      (fun x hx => hall x (List.mem_cons_of_mem l hx))

theorem processBlock (ext : ExtFns) (stations : List (StationId × ℚ × ℚ × ℚ))
    (toff : Option (List (StationId × ℚ))) (b : FTPBlock) (sep : String)
    (st : ParseState) (hsep : isSeparatorLine (stripLine sep) = true)
    (hb : blockOK ext stations toff b = true) (hst : st.broke = false) :
    ∃ m2 jdt2, runLines ext stations toff st (b.render sep) =
      .ok { st with
              bin_name := false, cal_name := false,
              meteor_header := false, jdt_ref := jdt2,
              current_meteor := some m2,
              meteor_list := st.meteor_list ++
                (st.current_meteor.map MeteorObservation.finish).toList } := by
  simp only [blockOK, Bool.and_eq_true] at hb
  obtain ⟨⟨⟨⟨⟨hbinpl, hbinok⟩, hcal⟩, hhdrpl⟩, hmatch⟩, hpts⟩ := hb
  obtain ⟨jdt, hjdt⟩ := isOkE_ok hbinok
  cases hph : parseHeaderLine (stripLine b.hdrLine) with
  | error e =>
    rw [hph] at hmatch
    simp at hmatch
  | ok pr =>
    obtain ⟨sid, fps⟩ := pr
    rw [hph] at hmatch
    simp only [Bool.and_eq_true] at hmatch
    obtain ⟨hsafe, hsome⟩ := hmatch
    obtain ⟨⟨lat, lon, hgt⟩, hlook⟩ := Option.isSome_iff_exists.mp hsome
    obtain ⟨jdt2, hoff⟩ := offsetSafe_ok hsafe jdt
    obtain ⟨m2, hrun⟩ := runPoints ext stations toff b.pointLines
      { st with
          bin_name := false, cal_name := false, meteor_header := false,
          jdt_ref := jdt2,
          current_meteor :=
            some (MeteorObservation.init jdt2 sid lat lon hgt fps),
          meteor_list := st.meteor_list ++
            (st.current_meteor.map MeteorObservation.finish).toList }
      (MeteorObservation.init jdt2 sid lat lon hgt fps) hst rfl rfl rfl rfl
      (by
        intro x hx
        have := List.all_eq_true.mp hpts x hx
        simpa [Bool.and_eq_true] using this)
    refine ⟨m2, jdt2, ?_⟩
    have e1 := processLine_sep ext stations toff st sep hst hsep
    have e2 := processLine_bin ext stations toff
      { st with
          bin_name := true,
          meteor_list := st.meteor_list ++
            (st.current_meteor.map MeteorObservation.finish).toList }
      b.binLine jdt hst rfl hbinpl hjdt
    have e3 := processLine_cal ext stations toff
      { st with
          bin_name := false, cal_name := true, jdt_ref := jdt,
          meteor_list := st.meteor_list ++
            (st.current_meteor.map MeteorObservation.finish).toList }
      b.calLine hst rfl rfl hcal
    have e4 := processLine_hdr_found ext stations toff
      { st with
          bin_name := false, cal_name := false, meteor_header := true,
          jdt_ref := jdt,
          meteor_list := st.meteor_list ++
            (st.current_meteor.map MeteorObservation.finish).toList }
      b.hdrLine sid fps jdt2 lat lon hgt hst rfl rfl rfl hhdrpl hph hoff hlook
    exact ((((runLines_cons_ok ext stations toff _ _ _ _ e1).trans
      (runLines_cons_ok ext stations toff _ _ _ _ e2)).trans
      (runLines_cons_ok ext stations toff _ _ _ _ e3)).trans
      (runLines_cons_ok ext stations toff _ _ _ _ e4)).trans hrun

theorem runBlocks (ext : ExtFns) (stations : List (StationId × ℚ × ℚ × ℚ))
    (toff : Option (List (StationId × ℚ))) (sep : String)
    (bs : List FTPBlock) (b : FTPBlock) (st : ParseState)
    (hsep : isSeparatorLine (stripLine sep) = true)
    (hall : ∀ x ∈ b :: bs, blockOK ext stations toff x = true)
    (hst : st.broke = false) :
    ∃ st2 m2, runLines ext stations toff st
        ((b :: bs).flatMap (fun x => x.render sep)) = .ok st2 ∧
      st2.current_meteor = some m2 ∧ st2.broke = false ∧
      st2.meteor_list.length = st.meteor_list.length +
        (st.current_meteor.map MeteorObservation.finish).toList.length +
        bs.length := by
  induction bs generalizing b st with
  | nil =>
    obtain ⟨m2, jdt2, hrun⟩ := processBlock ext stations toff b sep st hsep
      (hall b (List.mem_cons_self b [])) hst
    refine ⟨{ st with
        bin_name := false, cal_name := false, meteor_header := false,
        jdt_ref := jdt2, current_meteor := some m2,
        meteor_list := st.meteor_list ++
          (st.current_meteor.map MeteorObservation.finish).toList },
      m2, ?_, rfl, hst, ?_⟩
    · rw [List.flatMap_cons, List.flatMap_nil, List.append_nil]
      exact hrun
    · simp
  | cons b2 bs2 ih =>
    obtain ⟨m2, jdt2, hrun⟩ := processBlock ext stations toff b sep st hsep
      (hall b (List.mem_cons_self b (b2 :: bs2))) hst
    obtain ⟨st2, m3, hrun2, hcur, hbroke, hlen⟩ :=
      ih b2
        { st with
            bin_name := false, cal_name := false, meteor_header := false,
            jdt_ref := jdt2, current_meteor := some m2,
            meteor_list := st.meteor_list ++
              (st.current_meteor.map MeteorObservation.finish).toList }
        (fun x hx => hall x (List.mem_cons_of_mem b hx)) hst
    refine ⟨st2, m3, ?_, hcur, hbroke, ?_⟩
    · rw [List.flatMap_cons]
      exact (runLines_append_ok ext stations toff st _ _ _ hrun).trans hrun2
    · simp only [List.length_append, Option.map_some', Option.toList_some,
        List.length_cons, List.length_nil] at hlen
      simp only [List.length_cons]
      omega

theorem loadFTPDetectInfo_body (ext : ExtFns)
    (stations : List (StationId × ℚ × ℚ × ℚ))
    (toff : Option (List (StationId × ℚ))) (hdr body : List String)
    (hhdr : hdr.length = 11) :
    loadFTPDetectInfo ext (hdr ++ body) stations toff =
      match runLines ext stations toff initParseState body with
      | .ok st => .ok (finalFlush st)
      | .error e => .error e := by
  have hlen : ¬ (hdr ++ body).length < 11 := by
    rw [List.length_append, hhdr]
    omega
  have hdrop : (hdr ++ body).drop 11 = body := by
    rw [← hhdr]
    exact List.drop_left hdr body
  rw [loadFTPDetectInfo, if_neg hlen, hdrop]
  cases runLines ext stations toff initParseState body <;> rfl

/-- Claim C2 (amended): with the 11-line preamble, any junk lines before the
first separator produce no record; a file of complete blocks with no
trailing separator yields exactly one record per block (one per separator),
the in-progress record being appended at end-of-input; but because the
current-record variable is not cleared when a separator finalizes it, a file
that ends with a separator line appends the final record a second time: one
extra record that duplicates the last one. -/
theorem loadFTPDetectInfo_separator_count (ext : ExtFns)
    (stations : List (StationId × ℚ × ℚ × ℚ))
    (toff : Option (List (StationId × ℚ))) (hdr junk : List String)
    (sep : String) (b : FTPBlock) (bs : List FTPBlock)
    (hhdr : hdr.length = 11)
    (hsep : isSeparatorLine (stripLine sep) = true)
    (hjunk : ∀ l ∈ junk, isSeparatorLine (stripLine l) = false)
    (hall : ∀ x ∈ b :: bs, blockOK ext stations toff x = true) :
    loadFTPDetectInfo ext (hdr ++ junk) stations toff = .ok [] ∧
    (∃ out, loadFTPDetectInfo ext
        (hdr ++ junk ++ (b :: bs).flatMap (fun x => x.render sep)) stations
        toff = .ok out ∧ out.length = bs.length + 1) ∧
    (∃ L m, loadFTPDetectInfo ext
        (hdr ++ junk ++ (b :: bs).flatMap (fun x => x.render sep) ++ [sep])
        stations toff = .ok (L ++ [m, m]) ∧ L.length = bs.length) := by
  have h1 := runLines_inert ext stations toff initParseState junk rfl rfl rfl
    rfl rfl hjunk
  obtain ⟨st2, m2, hrun, hcur, hbroke, hlen⟩ :=
    runBlocks ext stations toff sep bs b initParseState hsep hall rfl
  have hlen0 : st2.meteor_list.length = bs.length := by
    simpa [initParseState] using hlen
  refine ⟨?_, ?_, ?_⟩
  · rw [loadFTPDetectInfo_body ext stations toff hdr junk hhdr, h1]
    rfl
  · refine ⟨finalFlush st2, ?_, ?_⟩
    · rw [List.append_assoc,
        loadFTPDetectInfo_body ext stations toff hdr _ hhdr,
        (runLines_append_ok ext stations toff _ _ _ _ h1).trans hrun]
    · have hf : finalFlush st2 = st2.meteor_list ++ [m2.finish] := by
        rw [finalFlush, hcur]
      rw [hf, List.length_append, hlen0]
      rfl
  · have hsepstep : runLines ext stations toff st2 [sep] =
        .ok { st2 with
                bin_name := true,
                meteor_list := st2.meteor_list ++
                  (st2.current_meteor.map MeteorObservation.finish).toList } := by
      rw [runLines_cons_ok ext stations toff st2 _ sep []
        (processLine_sep ext stations toff st2 sep hbroke hsep)]
      rfl
    refine ⟨st2.meteor_list, m2, ?_, hlen0⟩
    have hassoc : hdr ++ junk ++ (b :: bs).flatMap (fun x => x.render sep) ++
        [sep] =
        hdr ++ (junk ++ ((b :: bs).flatMap (fun x => x.render sep) ++
          [sep])) := by
      simp [List.append_assoc]
    rw [hassoc, loadFTPDetectInfo_body ext stations toff hdr _ hhdr,
      (runLines_append_ok ext stations toff _ _ _ _ h1).trans
        ((runLines_append_ok ext stations toff _ _ _ _ hrun).trans hsepstep)]
    simp [finalFlush, hcur]

theorem runFailTail (ext : ExtFns) (stations : List (StationId × ℚ × ℚ × ℚ))
    (toff : Option (List (StationId × ℚ)))
    (sep binL calL hdrL : String) (rest : List String) (st : ParseState)
    (hsep : isSeparatorLine (stripLine sep) = true)
    (hbinpl : plainLineB binL = true)
    (hbinok : isOkE (parseBinLine ext (stripLine binL)) = true)
    (hcal : plainLineB calL = true)
    (hunk : unknownHdrOK stations toff hdrL = true)
    (hst : st.broke = false) :
    ∃ jdt2, runLines ext stations toff st ([sep, binL, calL, hdrL] ++ rest) =
      .ok { st with
              bin_name := false, cal_name := false, meteor_header := false,
              jdt_ref := jdt2, broke := true,
              meteor_list := st.meteor_list ++
                (st.current_meteor.map MeteorObservation.finish).toList } := by
  simp only [unknownHdrOK, Bool.and_eq_true] at hunk
  obtain ⟨hhdrpl, hmatch⟩ := hunk
  obtain ⟨jdt, hjdt⟩ := isOkE_ok hbinok
  cases hph : parseHeaderLine (stripLine hdrL) with
  | error e =>
    rw [hph] at hmatch
    simp at hmatch
  | ok pr =>
    obtain ⟨sid, fps⟩ := pr
    rw [hph] at hmatch
    simp only [Bool.and_eq_true] at hmatch
    obtain ⟨hsafe, hnone⟩ := hmatch
    have hlook : dictLookup stations sid = none :=
      Option.isNone_iff_eq_none.mp hnone
    obtain ⟨jdt2, hoff⟩ := offsetSafe_ok hsafe jdt
    refine ⟨jdt2, ?_⟩
    have e1 := processLine_sep ext stations toff st sep hst hsep
    have e2 := processLine_bin ext stations toff
      { st with
          bin_name := true,
          meteor_list := st.meteor_list ++
            (st.current_meteor.map MeteorObservation.finish).toList }
      binL jdt hst rfl hbinpl hjdt
    have e3 := processLine_cal ext stations toff
      { st with
          bin_name := false, cal_name := true, jdt_ref := jdt,
          meteor_list := st.meteor_list ++
            (st.current_meteor.map MeteorObservation.finish).toList }
      calL hst rfl rfl hcal
    have e4 := processLine_hdr_missing ext stations toff
      { st with
          bin_name := false, cal_name := false, meteor_header := true,
          jdt_ref := jdt,
          meteor_list := st.meteor_list ++
            (st.current_meteor.map MeteorObservation.finish).toList }
      hdrL sid fps jdt2 hst rfl rfl rfl hhdrpl hph hoff hlook
    exact ((((runLines_cons_ok ext stations toff _ _ _ _ e1).trans
      (runLines_cons_ok ext stations toff _ _ _ _ e2)).trans
      (runLines_cons_ok ext stations toff _ _ _ _ e3)).trans
      (runLines_cons_ok ext stations toff _ _ _ _ e4)).trans
      (runLines_broke ext stations toff _ rest rfl)

/-- Claim C3 (amended): a meteor-header line whose station is absent from
the site catalog stops parsing at that line (all remaining lines are
ignored) and the in-progress record is never constructed; with no record
finalized before the failure the empty list is returned, but when records
were finalized the returned list carries the most recently finalized record
twice, because the current-record variable still references it at
end-of-input. -/
theorem loadFTPDetectInfo_unknown_station (ext : ExtFns)
    (stations : List (StationId × ℚ × ℚ × ℚ))
    (toff : Option (List (StationId × ℚ))) (hdr : List String)
    (sep binL calL hdrL : String) (rest : List String) (b : FTPBlock)
    (bs : List FTPBlock) (hhdr : hdr.length = 11)
    (hsep : isSeparatorLine (stripLine sep) = true)
    (hbinpl : plainLineB binL = true)
    (hbinok : isOkE (parseBinLine ext (stripLine binL)) = true)
    (hcal : plainLineB calL = true)
    (hunk : unknownHdrOK stations toff hdrL = true)
    (hall : ∀ x ∈ b :: bs, blockOK ext stations toff x = true) :
    loadFTPDetectInfo ext (hdr ++ ([sep, binL, calL, hdrL] ++ rest)) stations
      toff = .ok [] ∧
    (∃ L m, loadFTPDetectInfo ext
        (hdr ++ (b :: bs).flatMap (fun x => x.render sep) ++
          ([sep, binL, calL, hdrL] ++ rest)) stations toff =
        .ok (L ++ [m, m]) ∧ L.length = bs.length) := by
  constructor
  · obtain ⟨jdt2, hfail⟩ := runFailTail ext stations toff sep binL calL hdrL
      rest initParseState hsep hbinpl hbinok hcal hunk rfl
    rw [loadFTPDetectInfo_body ext stations toff hdr _ hhdr, hfail]
    rfl
  · obtain ⟨st2, m2, hrun, hcur, hbroke, hlen⟩ :=
      runBlocks ext stations toff sep bs b initParseState hsep hall rfl
    have hlen0 : st2.meteor_list.length = bs.length := by
      simpa [initParseState] using hlen
    obtain ⟨jdt2, hfail⟩ := runFailTail ext stations toff sep binL calL hdrL
      rest st2 hsep hbinpl hbinok hcal hunk hbroke
    refine ⟨st2.meteor_list, m2, ?_, hlen0⟩
    rw [List.append_assoc, loadFTPDetectInfo_body ext stations toff hdr _ hhdr,
      (runLines_append_ok ext stations toff _ _ _ _ hrun).trans hfail]
    simp [finalFlush, hcur]

/-- A complete concrete meteor block for station int 1. -/
def blockWit : FTPBlock :=
  { binLine := "FF453_20180614_010203_456_0.bin", calLine := "CAL_453.txt",
    hdrLine := "0001 0001 41 25.0",
    pointLines := ["0.0 x x 10.0 20.0 30.0 40.0",
                   "4.0 x x 11.0 21.0 31.0 41.0 0 3.5"] }

/-- Counterexample to claim C2 as stated: the same one-meteor file yields one
record without a trailing separator but two records with one, and the two
records are identical — the final separator adds an extra duplicate record
instead of none. -/
theorem loadFTPDetectInfo_trailing_separator_cx :
    (loadFTPDetectInfo extSample (hdr11 ++ blockWit.render sepLine)
      stationsWit none).map (fun l => l.length) = .ok 1 ∧
    (loadFTPDetectInfo extSample (hdr11 ++ blockWit.render sepLine ++
      [sepLine]) stationsWit none).map (fun l => l.length) = .ok 2 ∧
    (match loadFTPDetectInfo extSample (hdr11 ++ blockWit.render sepLine ++
      [sepLine]) stationsWit none with
     | .ok l => l[0]? = l[1]?
     | .error _ => False) := by
  refine ⟨by decide, by decide, ?_⟩
  rfl

/-- Witness for claim C2: one noise line, one block, with and without a
trailing separator. -/
theorem loadFTPDetectInfo_separator_count_witness :
    hdr11.length = 11 ∧
    (loadFTPDetectInfo extSample (hdr11 ++ ["noise line"]) stationsWit none =
      .ok [] ∧
    (∃ out, loadFTPDetectInfo extSample
        (hdr11 ++ ["noise line"] ++
          ([blockWit].flatMap (fun x => x.render sepLine))) stationsWit none =
        .ok out ∧ out.length = 0 + 1) ∧
    (∃ L m, loadFTPDetectInfo extSample
        (hdr11 ++ ["noise line"] ++
          ([blockWit].flatMap (fun x => x.render sepLine)) ++ [sepLine])
        stationsWit none = .ok (L ++ [m, m]) ∧ L.length = 0)) :=
  ⟨by decide,
   loadFTPDetectInfo_separator_count extSample stationsWit none hdr11
     ["noise line"] sepLine blockWit [] (by decide) (by decide) (by decide)
     (by decide)⟩

/-- Counterexample to claim C3 as stated: one record is finalized before the
unknown-station header, so the claim requires exactly that one record back,
but the load returns two (the finalized record twice); with no record
finalized before the failure the empty list is returned; the junk line after
the failing header is never parsed (parsing stopped). -/
theorem loadFTPDetectInfo_unknown_station_cx :
    (loadFTPDetectInfo extSample
      (hdr11 ++ blockWit.render sepLine ++
        [sepLine, "FF453_20180614_010203_456_0.bin", "CAL_453.txt",
         "0099 0001 41 25.0", "junk that would not parse"])
      stationsWit none).map (fun l => l.length) = .ok 2 ∧
    (match loadFTPDetectInfo extSample
      (hdr11 ++ blockWit.render sepLine ++
        [sepLine, "FF453_20180614_010203_456_0.bin", "CAL_453.txt",
         "0099 0001 41 25.0", "junk that would not parse"])
      stationsWit none with
     | .ok l => l[0]? = l[1]?
     | .error _ => False) ∧
    loadFTPDetectInfo extSample
      (hdr11 ++ [sepLine, "FF453_20180614_010203_456_0.bin", "CAL_453.txt",
        "0099 0001 41 25.0", "junk that would not parse"])
      stationsWit none = .ok [] := by
  refine ⟨by decide, ?_, by decide⟩
  rfl

/-- Witness for claim C3: a block for station 1 followed by a header naming
the unknown station 99. -/
theorem loadFTPDetectInfo_unknown_station_witness :
    unknownHdrOK stationsWit none "0099 0001 41 25.0" = true ∧
    (loadFTPDetectInfo extSample
      (hdr11 ++ ([sepLine, "FF453_20180614_010203_456_0.bin", "CAL_453.txt",
        "0099 0001 41 25.0"] ++ ["trailing junk"])) stationsWit none =
      .ok [] ∧
    (∃ L m, loadFTPDetectInfo extSample
        (hdr11 ++ ([blockWit].flatMap (fun x => x.render sepLine)) ++
          ([sepLine, "FF453_20180614_010203_456_0.bin", "CAL_453.txt",
            "0099 0001 41 25.0"] ++ ["trailing junk"])) stationsWit none =
        .ok (L ++ [m, m]) ∧ L.length = 0)) :=
  ⟨by decide,
   loadFTPDetectInfo_unknown_station extSample stationsWit none hdr11 sepLine
     "FF453_20180614_010203_456_0.bin" "CAL_453.txt" "0099 0001 41 25.0"
     ["trailing junk"] blockWit [] (by decide) (by decide) (by decide)
     (by decide) (by decide) (by decide) (by decide)⟩
